import Mathlib

/-!
Shallow embedding of the conversation orchestration controller of the
`somu7706/pharmacy` repository (src/App.tsx, src/types.ts): the data
contracts, the attachment-classification logic of `handleFileUpload`,
the transcript append `addMessage`, and the submission handler
`handleSend`, split at its single `await` suspension point into a
synchronous prefix (`handleSendPhase1`) and a continuation
(`handleSendPhase2`).
-/

namespace Pharmacy

/-- `AgentStatus` enum from src/types.ts. -/
inductive AgentStatus where
  | idle | thinking | generating | recording | live | error
deriving DecidableEq, Repr

/-- `MessageRole` from src/types.ts. -/
inductive MessageRole where
  | user | assistant | system
deriving DecidableEq, Repr

/-- `GroundingSource` from src/types.ts. -/
structure GroundingSource where
  title : Option String := none
  uri : Option String := none
deriving DecidableEq, Repr

/-- The `type` field of `Attachment` (src/types.ts union of string literals). -/
inductive AttachmentType where
  | image | video | audio | text | pdf | document | spreadsheet
  | presentation | code | note
deriving DecidableEq, Repr

/-- `Attachment` from src/types.ts. -/
structure Attachment where
  type : AttachmentType
  url : String
  data : Option String := none
  mimeType : String
deriving DecidableEq, Repr

/-- `Message` from src/types.ts. -/
structure Message where
  id : String
  role : MessageRole
  content : String
  timestamp : Nat
  attachments : Option (List Attachment) := none
  groundingSources : Option (List GroundingSource) := none
  isThinking : Option Bool := none
deriving DecidableEq, Repr

/-- The `activeMode` state of the App component (src/App.tsx). -/
inductive Mode where
  | chat | image | video | live
deriving DecidableEq, Repr

/-- The reactive state held by the App component (src/App.tsx):
`messages`, `input`, `status`, `attachments`, `activeMode`,
`thinkingBudget`. Presentation-only state (sidebar, overlay) is omitted. -/
structure AppState where
  messages : List Message
  input : String
  status : AgentStatus
  attachments : List Attachment
  activeMode : Mode
  thinkingBudget : Nat
deriving DecidableEq, Repr

/-- Drop leading whitespace characters. -/
def dropLeadingWs : List Char → List Char
  | [] => []
  | c :: t => if c.isWhitespace then dropLeadingWs t else c :: t

/-- JavaScript `String.prototype.trim`: strip whitespace from both
ends. Written on the character list so it evaluates by kernel
reduction. -/
def jsTrim (s : String) : String :=
  String.mk ((dropLeadingWs (dropLeadingWs s.toList).reverse).reverse)

/-- JavaScript `String.prototype.toLowerCase`, character by character. -/
def jsToLower (s : String) : String :=
  String.mk (s.toList.map Char.toLower)

/-- Bool substring test on char lists: does `pat` occur inside the list? -/
def listContainsSub (pat : List Char) : List Char → Bool
  | [] => pat.isEmpty
  | c :: t => pat.isPrefixOf (c :: t) || listContainsSub pat t

/-- JavaScript `String.prototype.startsWith`: prefix test, written on
the character lists so it evaluates by kernel reduction. -/
def jsStartsWith (s pre : String) : Bool :=
  pre.toList.isPrefixOf s.toList

/-- JavaScript `String.prototype.includes`: substring containment. -/
def strContains (s pat : String) : Bool :=
  listContainsSub pat.toList s.toList

/-- The message constructed by `addMessage` (src/App.tsx): id and
timestamp both come from `Date.now()` (passed here as `now`), the
optional fields from the `extra` argument. -/
def mkMessage (now : Nat) (role : MessageRole) (content : String)
    (atts : Option (List Attachment)) (gs : Option (List GroundingSource)) :
    Message :=
  { id := toString now, role := role, content := content, timestamp := now,
    attachments := atts, groundingSources := gs, isThinking := none }

/-- `addMessage` (src/App.tsx): appends the new message to the transcript. -/
def addMessage (now : Nat) (role : MessageRole) (content : String)
    (atts : Option (List Attachment)) (gs : Option (List GroundingSource))
    (msgs : List Message) : List Message :=
  msgs ++ [mkMessage now role content atts gs]

/-- The classification chain of `handleFileUpload` (src/App.tsx):
`let type = "image"` default, then the first-match-wins if/else chain. -/
def classifyType (mimeType : String) : AttachmentType :=
  if jsStartsWith mimeType "video" then .video
  else if jsStartsWith mimeType "audio" then .audio
  else if mimeType == "application/pdf" then .pdf
  else if strContains mimeType "text" || strContains mimeType "json" ||
      strContains mimeType "javascript" || strContains mimeType "typescript" then .code
  else if strContains mimeType "spreadsheet" || strContains mimeType "excel" ||
      strContains mimeType "csv" then .spreadsheet
  else if strContains mimeType "presentation" ||
      strContains mimeType "powerpoint" then .presentation
  else if !(jsStartsWith mimeType "image") then .document
  else .image

/-- The regex `/:(.*?);/` applied by `handleFileUpload` to the data-URL
header: the match sits at the first `:` followed somewhere by a `;`,
capturing up to the first `;` after that `:`. `takeUntilSemi` is the
lazy capture, `matchMime` the left-to-right scan with backtracking. -/
def takeUntilSemi : List Char → Option (List Char)
  | [] => none
  | c :: cs => if c = ';' then some [] else (takeUntilSemi cs).map (c :: ·)

/-- Scan for the first `:` after which a `;` occurs; capture between. -/
def matchMime : List Char → Option (List Char)
  | [] => none
  | c :: cs =>
    if c = ':' then
      match takeUntilSemi cs with
      | some r => some r
      | none => matchMime cs
    else matchMime cs

/-- `header.match(/:(.*?);/)?.[1] || "image/png"` (src/App.tsx): a failed
match, and also an empty capture (falsy in JS), default to `image/png`. -/
def extractMime (header : String) : String :=
  match matchMime header.toList with
  | some r => if r.isEmpty then "image/png" else String.mk r
  | none => "image/png"

/-- The attachment `handleFileUpload` appends to the composition buffer,
given the parsed pieces of the data URL and the object URL. -/
def ingestAttachment (mimeType : String) (objectUrl : String)
    (payload : String) : Attachment :=
  { type := classifyType mimeType, url := objectUrl, data := some payload,
    mimeType := mimeType }

/-- The option bundle built inline in the chat branch of `handleSend`
(src/App.tsx): substring heuristics over the lowercased snapshot text. -/
structure ChatOptions where
  useSearch : Bool
  useMaps : Bool
  thinkingBudget : Nat
deriving DecidableEq, Repr

/-- The chat options computed from the snapshotted input text and the
current thinking budget (src/App.tsx, `handleSend` chat branch). -/
def chatOptsOf (currentInput : String) (budget : Nat) : ChatOptions :=
  { useSearch := strContains (jsToLower currentInput) "search" ||
      strContains (jsToLower currentInput) "latest",
    useMaps := strContains (jsToLower currentInput) "location" ||
      strContains (jsToLower currentInput) "near me",
    thinkingBudget := budget }

/-- Result of `generateImage` / `generateVideo` (services interface). -/
structure MediaResult where
  url : String
deriving DecidableEq, Repr

/-- Result of `chat` (services interface). -/
structure ChatResult where
  text : String
  sources : List GroundingSource
deriving DecidableEq, Repr

/-- The gateway operation `handleSend` dispatches, with its arguments. -/
inductive GatewayRequest where
  | image (prompt : String)
  | video (prompt : String)
  | chat (prompt : String) (atts : List Attachment) (opts : ChatOptions)
deriving DecidableEq, Repr

/-- Untyped response shape, so a single continuation can consume any
of the three operation results. -/
inductive GatewayResponse where
  | media (r : MediaResult)
  | chatR (r : ChatResult)
deriving DecidableEq, Repr

/-- The `geminiService` collaborator: three fallible operations.
Modelled as pure functions from arguments to `Except errMessage result`;
`handleSend` is parametrised over one such service. -/
structure GeminiService where
  generateImage : String → Except String MediaResult
  generateVideo : String → Except String MediaResult
  chat : String → List Attachment → ChatOptions → Except String ChatResult

/-- Dispatch a request to the service and erase the result type. -/
def callGateway (svc : GeminiService) : GatewayRequest → Except String GatewayResponse
  | .image p => (svc.generateImage p).map .media
  | .video p => (svc.generateVideo p).map .media
  | .chat p atts opts => (svc.chat p atts opts).map .chatR

/-- The guard of `handleSend` (src/App.tsx):
`if (!input.trim() && attachments.length === 0) return;`. -/
def emptyGuard (st : AppState) : Bool :=
  jsTrim st.input == "" && st.attachments.isEmpty

/-- The synchronous prefix of `handleSend` (src/App.tsx), up to the
single `await`: guard, snapshot `currentInput`/`currentAttachments`,
clear the buffer, set status `thinking`, append the user message, then
branch on `activeMode` (image/video additionally set `generating`) and
produce the gateway request about to be awaited. `none` when the guard
rejects. `now` is `Date.now()` at the user-message append. -/
def handleSendPhase1 (now : Nat) (st : AppState) :
    Option (AppState × GatewayRequest) :=
  if emptyGuard st then none
  else
    let currentInput := st.input
    let currentAttachments := st.attachments
    let st1 : AppState :=
      { st with input := "", attachments := [], status := .thinking }
    let msgs2 :=
      addMessage now .user currentInput (some currentAttachments) none st1.messages
    let st2 : AppState := { st1 with messages := msgs2 }
    match st.activeMode with
    | .image => some ({ st2 with status := .generating }, .image currentInput)
    | .video => some ({ st2 with status := .generating }, .video currentInput)
    | _ => some (st2, .chat currentInput currentAttachments
        (chatOptsOf currentInput st.thinkingBudget))

/-- The continuation of `handleSend` after the awaited gateway call
resolves or rejects (src/App.tsx): the success branches append the
assistant message for the matching mode; the `catch` appends the error
message and sets status `error`; the `finally` sets status `idle`
unconditionally. `now` is `Date.now()` at the assistant-message append.
The final catch-all arm is unreachable through `callGateway`, which
always pairs a request with the response shape of its own operation. -/
def handleSendPhase2 (now : Nat) (req : GatewayRequest)
    (outcome : Except String GatewayResponse) (st : AppState) : AppState :=
  let st' : AppState :=
    match req, outcome with
    | .image p, .ok (.media r) =>
      let msgs :=
        addMessage now .assistant
          ("Here\x27s the image you requested based on: " ++ p)
          (some [{ type := .image, url := r.url, mimeType := "image/png" }])
          none st.messages
      { st with messages := msgs }
    | .video _, .ok (.media r) =>
      let msgs :=
        addMessage now .assistant "I\x27ve generated this video for you."
          (some [{ type := .video, url := r.url, mimeType := "video/mp4" }])
          none st.messages
      { st with messages := msgs }
    | .chat _ _ _, .ok (.chatR r) =>
      let msgs := addMessage now .assistant r.text none (some r.sources) st.messages
      { st with messages := msgs }
    | _, .error m =>
      let msgs :=
        addMessage now .assistant ("Encountered an error: " ++ m) none none st.messages
      { st with messages := msgs, status := .error }
    | _, _ => st
  { st' with status := .idle }

/-- Full `handleSend`: the synchronous prefix, then the gateway call,
then the continuation. Returns the final state together with the
dispatched request (`none` when the guard made the call a no-op).
`now1`/`now2` are the two `Date.now()` readings. -/
def handleSend (svc : GeminiService) (now1 now2 : Nat) (st : AppState) :
    AppState × Option GatewayRequest :=
  match handleSendPhase1 now1 st with
  | none => (st, none)
  | some (st1, req) => (handleSendPhase2 now2 req (callGateway svc req) st1, some req)

/-- The `disabled` condition of the send button (src/App.tsx):
`status !== AgentStatus.IDLE || (!input.trim() && attachments.length === 0)`. -/
def sendDisabled (st : AppState) : Bool :=
  st.status != .idle || (jsTrim st.input == "" && st.attachments.isEmpty)

/-! Spec-side classifier, for comparison with `classifyType`: a
first-match-wins ordered rule table, as the spec describes it. -/

/-- Apply an ordered rule table, first match wins, with a default. -/
def firstMatchType (rules : List ((String → Bool) × AttachmentType))
    (deflt : AttachmentType) (mt : String) : AttachmentType :=
  match rules with
  | [] => deflt
  | (p, t) :: rest => if p mt then t else firstMatchType rest deflt mt

/-- The rule table exactly as the spec words it: `video/*`, `audio/*`
and `image/*` read as MIME wildcard patterns, i.e. the top-level type
followed by a slash. -/
def specRulesStated : List ((String → Bool) × AttachmentType) :=
  [ (fun mt => jsStartsWith mt "video/", .video),
    (fun mt => jsStartsWith mt "audio/", .audio),
    (fun mt => mt == "application/pdf", .pdf),
    (fun mt => strContains mt "text" || strContains mt "json" ||
      strContains mt "javascript" || strContains mt "typescript", .code),
    (fun mt => strContains mt "spreadsheet" || strContains mt "excel" ||
      strContains mt "csv", .spreadsheet),
    (fun mt => strContains mt "presentation" || strContains mt "powerpoint",
      .presentation),
    (fun mt => !(jsStartsWith mt "image/"), .document) ]

/-- The classifier the spec states, literally. -/
def classifySpecStated (mt : String) : AttachmentType :=
  firstMatchType specRulesStated .image mt

/-- The rule table with the wildcard rules amended to bare prefix
matches (`video`, `audio`, `image` with no slash required), which is
what the source checks with `startsWith`. -/
def specRulesAmended : List ((String → Bool) × AttachmentType) :=
  [ (fun mt => jsStartsWith mt "video", .video),
    (fun mt => jsStartsWith mt "audio", .audio),
    (fun mt => mt == "application/pdf", .pdf),
    (fun mt => strContains mt "text" || strContains mt "json" ||
      strContains mt "javascript" || strContains mt "typescript", .code),
    (fun mt => strContains mt "spreadsheet" || strContains mt "excel" ||
      strContains mt "csv", .spreadsheet),
    (fun mt => strContains mt "presentation" || strContains mt "powerpoint",
      .presentation),
    (fun mt => !(jsStartsWith mt "image"), .document) ]

/-- The amended spec classifier. -/
def classifySpecAmended (mt : String) : AttachmentType :=
  firstMatchType specRulesAmended .image mt

/-! Concrete services and states used by closed example theorems. -/

/-- A service whose three operations all reject. -/
def svcAllFail : GeminiService :=
  { generateImage := fun _ => .error "network timeout",
    generateVideo := fun _ => .error "network timeout",
    chat := fun _ _ _ => .error "network timeout" }

/-- A service whose three operations all succeed with fixed results. -/
def svcAllOk : GeminiService :=
  { generateImage := fun _ => .ok { url := "blob-image" },
    generateVideo := fun _ => .ok { url := "blob-video" },
    chat := fun _ _ _ => .ok { text := "reply", sources := [] } }

/-- Chat-mode state with input `"hi"`, idle, empty transcript. -/
def stChatHi : AppState :=
  { messages := [], input := "hi", status := .idle, attachments := [],
    activeMode := .chat, thinkingBudget := 500 }

/-- Video-mode state with input `"sunset"`. -/
def stVideoSunset : AppState :=
  { stChatHi with input := "sunset", activeMode := .video }

/-- Image-mode state with input `"generate a sunset"`. -/
def stImageSunset : AppState :=
  { stChatHi with input := "generate a sunset", activeMode := .image }

/-- Chat-mode state with input `"latest news on AI"`. -/
def stLatestNews : AppState :=
  { stChatHi with input := "latest news on AI" }

/-- Empty composition buffer, idle status. -/
def stEmpty : AppState :=
  { stChatHi with input := "" }

/-- Empty composition buffer while the agent is busy. -/
def stBusyEmpty : AppState :=
  { stChatHi with input := "", status := .thinking }

/-- Nonempty input while the agent is busy (not idle). -/
def stBusyHi : AppState :=
  { stChatHi with status := .thinking }

/-- The gateway operation selected for the current state fails with
message `m` (the operation and its arguments are the ones `handleSend`
dispatches for `st.activeMode`). -/
def modeFails (svc : GeminiService) (st : AppState) (m : String) : Prop :=
  match st.activeMode with
  | .image => svc.generateImage st.input = .error m
  | .video => svc.generateVideo st.input = .error m
  | _ => svc.chat st.input st.attachments
      (chatOptsOf st.input st.thinkingBudget) = .error m

/-- Final state after a guarded submission: buffer cleared, status
idle, the user message then a given assistant message appended. -/
def postState (st : AppState) (userNow : Nat) (asst : Message) : AppState :=
  let msgs := st.messages ++
    [mkMessage userNow .user st.input (some st.attachments) none, asst]
  { st with input := "", attachments := [], status := .idle, messages := msgs }

/-- The intermediate state `handleSendPhase1` hands to the awaited
continuation: buffer cleared, user message appended, status set. -/
def phase1State (st : AppState) (now : Nat) (stat : AgentStatus) : AppState :=
  let msgs := addMessage now .user st.input (some st.attachments) none st.messages
  { st with input := "", attachments := [], status := stat, messages := msgs }

/-! Helper lemmas shared by the claim theorems. -/

theorem phase2_status (now : Nat) (req : GatewayRequest)
    (outcome : Except String GatewayResponse) (st : AppState) :
    (handleSendPhase2 now req outcome st).status = .idle := rfl

theorem isPrefixOf_self (l : List Char) : l.isPrefixOf l = true := by
  induction l with
  | nil => rfl
  | cons a t ih => simp [List.isPrefixOf, ih]

theorem listContainsSub_append_self (pat l : List Char) :
    listContainsSub pat (l ++ pat) = true := by
  induction l with
  | nil =>
    cases pat with
    | nil => rfl
    | cons c t => simp [listContainsSub, isPrefixOf_self]
  | cons c t ih => simp [listContainsSub, ih]

theorem strContains_append_self (a b : String) :
    strContains (a ++ b) b = true := by
  simp [strContains, String.toList, String.data_append, listContainsSub_append_self]

theorem handleSend_image_ok (svc : GeminiService) (n1 n2 : Nat) (st : AppState)
    (r : MediaResult) (h : emptyGuard st = false) (hm : st.activeMode = .image)
    (hr : svc.generateImage st.input = .ok r) :
    handleSend svc n1 n2 st =
      (postState st n1 (mkMessage n2 .assistant
        ("Here\x27s the image you requested based on: " ++ st.input)
        (some [{ type := .image, url := r.url, mimeType := "image/png" }]) none),
       some (.image st.input)) := by
  simp [handleSend, handleSendPhase1, h, hm, callGateway, hr, Except.map,
    handleSendPhase2, postState, addMessage]

theorem handleSend_video_ok (svc : GeminiService) (n1 n2 : Nat) (st : AppState)
    (r : MediaResult) (h : emptyGuard st = false) (hm : st.activeMode = .video)
    (hr : svc.generateVideo st.input = .ok r) :
    handleSend svc n1 n2 st =
      (postState st n1 (mkMessage n2 .assistant
        "I\x27ve generated this video for you."
        (some [{ type := .video, url := r.url, mimeType := "video/mp4" }]) none),
       some (.video st.input)) := by
  simp [handleSend, handleSendPhase1, h, hm, callGateway, hr, Except.map,
    handleSendPhase2, postState, addMessage]

theorem handleSend_chat_ok (svc : GeminiService) (n1 n2 : Nat) (st : AppState)
    (r : ChatResult) (h : emptyGuard st = false) (hm : st.activeMode = .chat)
    (hr : svc.chat st.input st.attachments
      (chatOptsOf st.input st.thinkingBudget) = .ok r) :
    handleSend svc n1 n2 st =
      (postState st n1 (mkMessage n2 .assistant r.text none (some r.sources)),
       some (.chat st.input st.attachments
         (chatOptsOf st.input st.thinkingBudget))) := by
  simp [handleSend, handleSendPhase1, h, hm, callGateway, hr, Except.map,
    handleSendPhase2, postState, addMessage]

theorem handleSend_err (svc : GeminiService) (n1 n2 : Nat) (st : AppState)
    (m : String) (h : emptyGuard st = false) (hf : modeFails svc st m) :
    (handleSend svc n1 n2 st).1 =
      postState st n1 (mkMessage n2 .assistant
        ("Encountered an error: " ++ m) none none) := by
  unfold modeFails at hf
  cases hm : st.activeMode <;> rw [hm] at hf <;>
    simp [handleSend, handleSendPhase1, h, hm, callGateway, hf, Except.map,
      handleSendPhase2, postState, addMessage]

theorem phase1_isSome (now : Nat) (st : AppState) (h : emptyGuard st = false) :
    ∃ pr, handleSendPhase1 now st = some pr := by
  cases hm : st.activeMode <;>
    simp [handleSendPhase1, h, hm]

theorem handleSend_messages (svc : GeminiService) (n1 n2 : Nat) (st : AppState)
    (h : emptyGuard st = false) :
    ∃ asst : Message,
      (handleSend svc n1 n2 st).1 = postState st n1 asst ∧
      asst.role = .assistant := by
  cases hm : st.activeMode
  case image =>
    cases hr : svc.generateImage st.input with
    | ok r =>
      refine ⟨_, by rw [handleSend_image_ok svc n1 n2 st r h hm hr], ?_⟩
      rfl
    | error m =>
      refine ⟨_, handleSend_err svc n1 n2 st m h (by unfold modeFails; rw [hm]; exact hr), ?_⟩
      rfl
  case video =>
    cases hr : svc.generateVideo st.input with
    | ok r =>
      refine ⟨_, by rw [handleSend_video_ok svc n1 n2 st r h hm hr], ?_⟩
      rfl
    | error m =>
      refine ⟨_, handleSend_err svc n1 n2 st m h (by unfold modeFails; rw [hm]; exact hr), ?_⟩
      rfl
  case chat =>
    cases hr : svc.chat st.input st.attachments (chatOptsOf st.input st.thinkingBudget) with
    | ok r =>
      refine ⟨_, by rw [handleSend_chat_ok svc n1 n2 st r h hm hr], ?_⟩
      rfl
    | error m =>
      refine ⟨_, handleSend_err svc n1 n2 st m h (by unfold modeFails; rw [hm]; exact hr), ?_⟩
      rfl
  case live =>
    cases hr : svc.chat st.input st.attachments (chatOptsOf st.input st.thinkingBudget) with
    | ok r =>
      refine ⟨mkMessage n2 .assistant r.text none (some r.sources), ?_, rfl⟩
      simp [handleSend, handleSendPhase1, h, hm, callGateway, hr, Except.map,
        handleSendPhase2, postState, addMessage]
    | error m =>
      refine ⟨_, handleSend_err svc n1 n2 st m h (by unfold modeFails; rw [hm]; exact hr), ?_⟩
      rfl

/-! Claim theorems. -/

/-- Claim C1, counterexample: a call to `handleSend` while the Agent
Status Register is `thinking` (not `idle`) and the input is nonempty is
NOT a no-op — two messages are appended, a gateway request is
dispatched, and the status register changes. The idle gate exists only
on the send button, not in `handleSend` itself, so the Enter-key entry
path reaches this call. -/
theorem C1_counterexample :
    (handleSend svcAllOk 1 2 stBusyHi).1.messages.length = 2 ∧
    (handleSend svcAllOk 1 2 stBusyHi).2 ≠ none ∧
    (handleSend svcAllOk 1 2 stBusyHi).1.status ≠ stBusyHi.status := by decide

/-- Claim C1, amended: a call to `submit` is a no-op exactly when the
text is empty or whitespace-only and the pending attachments are empty;
the not-idle gate is enforced only by the send button being disabled
whenever the status register is not `idle`, not inside `submit`. -/
theorem C1_submit_noop_amended :
    (∀ (svc : GeminiService) (n1 n2 : Nat) (st : AppState),
      jsTrim st.input = "" → st.attachments = [] →
      handleSend svc n1 n2 st = (st, none)) ∧
    (∀ st : AppState, st.status ≠ .idle → sendDisabled st = true) := by
  constructor
  · intro svc n1 n2 st h1 h2
    have hg : emptyGuard st = true := by
      simp [emptyGuard, h1, h2]
    simp [handleSend, handleSendPhase1, hg]
  · intro st hs
    simp [sendDisabled]
    exact Or.inl hs

/-- Claim C1, witness for the amended theorem at a concrete busy state
with an empty composition buffer. -/
theorem C1_submit_noop_amended_witness :
    handleSend svcAllOk 1 2 stBusyEmpty = (stBusyEmpty, none) ∧
    sendDisabled stBusyEmpty = true :=
  ⟨C1_submit_noop_amended.1 svcAllOk 1 2 stBusyEmpty (by decide) rfl,
   C1_submit_noop_amended.2 stBusyEmpty (by decide)⟩

/-- Claim C2: for every call to `submit` that passes the precondition,
whether the gateway call succeeds or fails, the Agent Status Register
equals `idle` after the call completes (the `finally` step supersedes
any `error` status within the same submission cycle). -/
theorem C2_status_idle_after_submit (svc : GeminiService) (n1 n2 : Nat)
    (st : AppState) (h : emptyGuard st = false) :
    ((handleSend svc n1 n2 st).1).status = .idle := by
  obtain ⟨asst, he, _⟩ := handleSend_messages svc n1 n2 st h
  rw [he]
  rfl

/-- Claim C2, witness: a failing chat submission still ends `idle`. -/
theorem C2_status_idle_after_submit_witness :
    emptyGuard stChatHi = false ∧
    ((handleSend svcAllFail 1 2 stChatHi).1).status = .idle :=
  ⟨by decide, C2_status_idle_after_submit svcAllFail 1 2 stChatHi (by decide)⟩

/-- Claim C3: for every call to `submit` that passes the precondition,
success or failure alike, the Transcript Store grows by exactly two
messages: first the user message built from the snapshotted
composition-buffer values, then an assistant message. -/
theorem C3_transcript_appends_two (svc : GeminiService) (n1 n2 : Nat)
    (st : AppState) (h : emptyGuard st = false) :
    ∃ asst : Message, asst.role = .assistant ∧
      (handleSend svc n1 n2 st).1.messages =
        st.messages ++
          [mkMessage n1 .user st.input (some st.attachments) none, asst] := by
  obtain ⟨asst, he, hrole⟩ := handleSend_messages svc n1 n2 st h
  exact ⟨asst, hrole, by rw [he]; rfl⟩

/-- Claim C3, witness: a submission whose gateway call fails still
appends exactly the two messages. -/
theorem C3_transcript_appends_two_witness :
    ∃ asst : Message, asst.role = .assistant ∧
      (handleSend svcAllFail 5 6 stChatHi).1.messages =
        stChatHi.messages ++
          [mkMessage 5 .user stChatHi.input (some stChatHi.attachments) none, asst] :=
  C3_transcript_appends_two svcAllFail 5 6 stChatHi (by decide)

/-- Claim C4: when the dispatched gateway operation fails with message
`m`, the error is absorbed (`handleSend` is total and returns a state)
and the appended assistant message content contains `m`. -/
theorem C4_gateway_error_surfaced (svc : GeminiService) (n1 n2 : Nat)
    (st : AppState) (m : String) (h : emptyGuard st = false)
    (hf : modeFails svc st m) :
    (handleSend svc n1 n2 st).1.messages =
      st.messages ++
        [mkMessage n1 .user st.input (some st.attachments) none,
         mkMessage n2 .assistant ("Encountered an error: " ++ m) none none] ∧
    strContains ("Encountered an error: " ++ m) m = true := by
  constructor
  · rw [handleSend_err svc n1 n2 st m h hf]
    rfl
  · exact strContains_append_self "Encountered an error: " m

/-- Claim C4, witness: a `chat` rejection with message
`"network timeout"` produces an assistant message containing it. -/
theorem C4_gateway_error_surfaced_witness :
    (handleSend svcAllFail 1 2 stChatHi).1.messages =
      stChatHi.messages ++
        [mkMessage 1 .user stChatHi.input (some stChatHi.attachments) none,
         mkMessage 2 .assistant ("Encountered an error: " ++ "network timeout") none none] ∧
    strContains ("Encountered an error: " ++ "network timeout") "network timeout" = true :=
  C4_gateway_error_surfaced svcAllFail 1 2 stChatHi "network timeout" (by decide) rfl

/-- Claim C5, counterexample: the code classifies by the bare prefix
`video` while the claim writes the wildcard pattern `video/*`; the
mime string `"video"` separates them (code: video, claimed rules:
document). -/
theorem C5_counterexample :
    classifyType "video" = .video ∧
    classifySpecStated "video" = .document ∧
    AttachmentType.video ≠ AttachmentType.document := by decide

/-- Claim C5, amended: classification is a pure function of `mimeType`
applying first-match-wins ordered rules with the `video/*`, `audio/*`
and `image/*` patterns read as bare prefixes (`video`, `audio`,
`image`, no slash required); a header without a parseable MIME field
defaults to `image/png`, which classifies as image. -/
theorem C5_classifier_amended :
    (∀ mt : String, classifyType mt = classifySpecAmended mt) ∧
    (∀ h : String, matchMime h.toList = none → extractMime h = "image/png") ∧
    classifyType "image/png" = AttachmentType.image := by
  refine ⟨fun mt => rfl, fun h hm => ?_, by decide⟩
  unfold extractMime
  rw [hm]

/-- Claim C5, witness at `"video/mp4"` and a header with no MIME field. -/
theorem C5_classifier_amended_witness :
    classifyType "video/mp4" = classifySpecAmended "video/mp4" ∧
    matchMime "data".toList = none ∧
    extractMime "data" = "image/png" :=
  ⟨C5_classifier_amended.1 "video/mp4", by decide,
   C5_classifier_amended.2.1 "data" (by decide)⟩

/-- Claim C6, counterexample: an ingested file with mimeType exactly
`text/csv` is classified `code`, not `spreadsheet` — the `contains
"text"` rule fires before the `contains "csv"` rule. -/
theorem C6_counterexample :
    (ingestAttachment "text/csv" "blob-url" "payload").type ≠ .spreadsheet ∧
    (ingestAttachment "text/csv" "blob-url" "payload").type = .code := by decide

/-- Claim C6, amended: an ingested file whose mimeType is exactly
`text/csv` gets attachment type `code`, because the substring rule for
`text` precedes the `csv` rule in the first-match-wins chain. -/
theorem C6_text_csv_is_code (url payload : String) :
    (ingestAttachment "text/csv" url payload).type = .code := rfl

/-- Claim C7, counterexample: a successful video-mode submission with
prompt `"sunset"` yields the fixed assistant caption that does NOT
reference the prompt text, refuting the claim that both image and
video captions reference the original prompt. -/
theorem C7_counterexample :
    ((handleSend svcAllOk 1 2 stVideoSunset).1.messages.map Message.content) =
      ["sunset", "I\x27ve generated this video for you."] ∧
    strContains "I\x27ve generated this video for you." "sunset" = false ∧
    ((handleSend svcAllOk 1 2 stVideoSunset).1.messages.map Message.attachments) =
      [some [], some [{ type := .video, url := "blob-video", mimeType := "video/mp4" }]] := by
  decide

/-- Claim C7, amended: on a successful image-mode submission the
assistant caption is templated and contains the original prompt, and
the sole attachment is the returned handle with type `image` and
synthesized mimeType `image/png`; on a successful video-mode
submission the caption is the fixed string (not referencing the
prompt) and the sole attachment is the returned handle with type
`video` and synthesized mimeType `video/mp4`. -/
theorem C7_media_result_amended (svc : GeminiService) (n1 n2 : Nat)
    (st : AppState) (u : String) (h : emptyGuard st = false) :
    (st.activeMode = .image → svc.generateImage st.input = .ok { url := u } →
      (handleSend svc n1 n2 st).1 =
        postState st n1 (mkMessage n2 .assistant
          ("Here\x27s the image you requested based on: " ++ st.input)
          (some [{ type := .image, url := u, mimeType := "image/png" }]) none) ∧
      strContains ("Here\x27s the image you requested based on: " ++ st.input)
        st.input = true) ∧
    (st.activeMode = .video → svc.generateVideo st.input = .ok { url := u } →
      (handleSend svc n1 n2 st).1 =
        postState st n1 (mkMessage n2 .assistant
          "I\x27ve generated this video for you."
          (some [{ type := .video, url := u, mimeType := "video/mp4" }]) none)) := by
  constructor
  · intro hm hr
    constructor
    · rw [handleSend_image_ok svc n1 n2 st { url := u } h hm hr]
    · exact strContains_append_self "Here\x27s the image you requested based on: " st.input
  · intro hm hr
    rw [handleSend_video_ok svc n1 n2 st { url := u } h hm hr]

/-- Claim C7, witness: image-mode scenario with prompt
`"generate a sunset"`; the caption contains the prompt. -/
theorem C7_media_result_amended_witness :
    (handleSend svcAllOk 1 2 stImageSunset).1 =
      postState stImageSunset 1 (mkMessage 2 .assistant
        ("Here\x27s the image you requested based on: " ++ stImageSunset.input)
        (some [{ type := .image, url := "blob-image", mimeType := "image/png" }]) none) ∧
    strContains ("Here\x27s the image you requested based on: " ++ stImageSunset.input)
      stImageSunset.input = true :=
  (C7_media_result_amended svcAllOk 1 2 stImageSunset "blob-image" (by decide)).1 rfl rfl

/-- Claim C8: every chat-mode submission dispatches a `chat` gateway
request whose options satisfy the substring heuristics over the
lowercased snapshot text and carry the configured thinking budget. -/
theorem C8_chat_options (svc : GeminiService) (n1 n2 : Nat) (st : AppState)
    (h : emptyGuard st = false) (hm : st.activeMode = .chat) :
    ∃ opts : ChatOptions,
      (handleSend svc n1 n2 st).2 = some (.chat st.input st.attachments opts) ∧
      (opts.useSearch = true ↔
        (strContains (jsToLower st.input) "search" = true ∨
         strContains (jsToLower st.input) "latest" = true)) ∧
      (opts.useMaps = true ↔
        (strContains (jsToLower st.input) "location" = true ∨
         strContains (jsToLower st.input) "near me" = true)) ∧
      opts.thinkingBudget = st.thinkingBudget := by
  refine ⟨chatOptsOf st.input st.thinkingBudget, ?_, ?_, ?_, rfl⟩
  · cases hr : svc.chat st.input st.attachments (chatOptsOf st.input st.thinkingBudget) with
    | ok r => rw [handleSend_chat_ok svc n1 n2 st r h hm hr]
    | error m =>
      simp [handleSend, handleSendPhase1, h, hm, callGateway, hr, Except.map,
        handleSendPhase2]
  · simp [chatOptsOf, Bool.or_eq_true]
  · simp [chatOptsOf, Bool.or_eq_true]

/-- Claim C8, witness: the scenario text `"latest news on AI"` yields
`useSearch = true` and `useMaps = false`. -/
theorem C8_chat_options_witness :
    (∃ opts : ChatOptions,
      (handleSend svcAllOk 1 2 stLatestNews).2 =
        some (.chat stLatestNews.input stLatestNews.attachments opts) ∧
      (opts.useSearch = true ↔
        (strContains (jsToLower stLatestNews.input) "search" = true ∨
         strContains (jsToLower stLatestNews.input) "latest" = true)) ∧
      (opts.useMaps = true ↔
        (strContains (jsToLower stLatestNews.input) "location" = true ∨
         strContains (jsToLower stLatestNews.input) "near me" = true)) ∧
      opts.thinkingBudget = stLatestNews.thinkingBudget) ∧
    chatOptsOf stLatestNews.input stLatestNews.thinkingBudget =
      { useSearch := true, useMaps := false, thinkingBudget := 500 } :=
  ⟨C8_chat_options svcAllOk 1 2 stLatestNews (by decide) rfl, by decide⟩

/-- Claim C9: the synchronous prefix of `submit` (everything before
the awaited gateway call) clears the composition buffer and appends
the user message built from the snapshotted values; the rest of the
submission consumes only the snapshot state and request. -/
theorem C9_snapshot_clear_before_async (now : Nat) (st : AppState)
    (h : emptyGuard st = false) :
    ∃ st1 req, handleSendPhase1 now st = some (st1, req) ∧
      st1.input = "" ∧ st1.attachments = [] ∧
      st1.messages = st.messages ++
        [mkMessage now .user st.input (some st.attachments) none] ∧
      ∀ (svc : GeminiService) (n2 : Nat),
        handleSend svc now n2 st =
          (handleSendPhase2 n2 req (callGateway svc req) st1, some req) := by
  cases hm : st.activeMode
  case image =>
    have hp : handleSendPhase1 now st =
        some (phase1State st now .generating, .image st.input) := by
      simp [handleSendPhase1, h, hm, phase1State, addMessage]
    refine ⟨_, _, hp, rfl, rfl, rfl, ?_⟩
    intro svc n2
    simp [handleSend, hp]
  case video =>
    have hp : handleSendPhase1 now st =
        some (phase1State st now .generating, .video st.input) := by
      simp [handleSendPhase1, h, hm, phase1State, addMessage]
    refine ⟨_, _, hp, rfl, rfl, rfl, ?_⟩
    intro svc n2
    simp [handleSend, hp]
  case chat =>
    have hp : handleSendPhase1 now st =
        some (phase1State st now .thinking,
          .chat st.input st.attachments (chatOptsOf st.input st.thinkingBudget)) := by
      simp [handleSendPhase1, h, hm, phase1State, addMessage]
    refine ⟨_, _, hp, rfl, rfl, rfl, ?_⟩
    intro svc n2
    simp [handleSend, hp]
  case live =>
    have hp : handleSendPhase1 now st =
        some (phase1State st now .thinking,
          .chat st.input st.attachments (chatOptsOf st.input st.thinkingBudget)) := by
      simp [handleSendPhase1, h, hm, phase1State, addMessage]
    refine ⟨_, _, hp, rfl, rfl, rfl, ?_⟩
    intro svc n2
    simp [handleSend, hp]

/-- Claim C9, witness at a concrete chat-mode state. -/
theorem C9_snapshot_clear_before_async_witness :
    ∃ st1 req, handleSendPhase1 7 stChatHi = some (st1, req) ∧
      st1.input = "" ∧ st1.attachments = [] ∧
      st1.messages = stChatHi.messages ++
        [mkMessage 7 .user stChatHi.input (some stChatHi.attachments) none] ∧
      ∀ (svc : GeminiService) (n2 : Nat),
        handleSend svc 7 n2 stChatHi =
          (handleSendPhase2 n2 req (callGateway svc req) st1, some req) :=
  C9_snapshot_clear_before_async 7 stChatHi (by decide)

/-- Claim C10: message ids are `Date.now().toString()`; two messages
created in the same millisecond receive the same id. A submission
whose gateway call rejects in the same millisecond as the user-message
append yields a transcript with two distinct messages (roles differ)
sharing id `"1000"`, contradicting id uniqueness. -/
theorem C10_duplicate_ids_eval :
    (handleSend svcAllFail 1000 1000 stChatHi).1.messages.map Message.id =
      ["1000", "1000"] ∧
    (handleSend svcAllFail 1000 1000 stChatHi).1.messages.map Message.role =
      [.user, .assistant] := by decide

end Pharmacy
